import Mathlib

/-!
Verification of the zodiac-sign web service (server.js and companions).

The development shallowly embeds the parts of the source the claims are
about:

* `calculateZodiacSign` — the pure date-to-sign classifier of server.js,
  with its fixed twelve-entry range table `zodiacSigns`;
* `validateName` / `validateDOB` — the express-validator chain
  `zodiacValidation` (name: trim, length 1–100, regex
  `^[a-zA-Z\s'-]+$`; dateOfBirth: ISO-8601 well-formedness, not in the
  future, not before 1900-01-01);
* `submit` — the POST /api/zodiac handler: validate, classify, build an
  entry `{id: Date.now(), name, dateOfBirth, zodiacSign, timestamp}`,
  unshift it onto the stored list and truncate the list to 100 entries;
* `recent` — the GET /api/recent handler: first 10 stored entries,
  each projected to `{id, name, zodiacSign, timestamp}`.

Modelling conventions.  JS month/day numbers are embedded as `Int`
(the handler extracts them with `getMonth() + 1` / `getDate()`, which
on a valid date yield integers; the classifier itself accepts any
integers).  A parsed calendar date is a `(year, month, day)` triple;
for valid calendar dates at UTC midnight, JS `Date` comparison agrees
with lexicographic comparison of the triples, which is how `dateLtB`
models `date > now` and `date < new Date('1900-01-01')`.  Instants
(`Date.now()`, and the entry timestamp) are embedded as a single `Int`
of epoch milliseconds.  The request's `dateOfBirth` is carried as
`Option SDate`: `none` stands for a string `isISO8601` rejects (in
that case the code's custom range check compares `NaN` and raises no
further error, which the model reflects by emitting only the format
error).
-/

/-- One row of the zodiac range table: server.js
`{ sign, startMonth, startDay, endMonth, endDay }`. -/
structure ZodiacEntry where
  sign : String
  startMonth : Int
  startDay : Int
  endMonth : Int
  endDay : Int
deriving DecidableEq

/-- The fixed table `zodiacSigns` of server.js, in source order. -/
def zodiacSigns : List ZodiacEntry :=
  [ ⟨"Capricorn", 12, 22, 1, 19⟩,
    ⟨"Aquarius", 1, 20, 2, 18⟩,
    ⟨"Pisces", 2, 19, 3, 20⟩,
    ⟨"Aries", 3, 21, 4, 19⟩,
    ⟨"Taurus", 4, 20, 5, 20⟩,
    ⟨"Gemini", 5, 21, 6, 20⟩,
    ⟨"Cancer", 6, 21, 7, 22⟩,
    ⟨"Leo", 7, 23, 8, 22⟩,
    ⟨"Virgo", 8, 23, 9, 22⟩,
    ⟨"Libra", 9, 23, 10, 22⟩,
    ⟨"Scorpio", 10, 23, 11, 21⟩,
    ⟨"Sagittarius", 11, 22, 12, 21⟩ ]

/-- The match test the loop body of `calculateZodiacSign` applies to one
table row: the same-month branch when `startMonth === endMonth`, the
cross-month branch otherwise, with all four day comparisons inclusive. -/
def zodiacMatches (z : ZodiacEntry) (month day : Int) : Bool :=
  if z.startMonth = z.endMonth then
    decide (month = z.startMonth ∧ z.startDay ≤ day ∧ day ≤ z.endDay)
  else
    decide ((month = z.startMonth ∧ z.startDay ≤ day) ∨
            (month = z.endMonth ∧ day ≤ z.endDay))

/-- server.js `calculateZodiacSign`, on the `(month, day)` the handler
extracts from the birth date: return the sign of the first matching
table row, or the fallback string `"Unknown"` when no row matches. -/
def calculateZodiacSign (month day : Int) : String :=
  match zodiacSigns.find? (fun z => zodiacMatches z month day) with
  | some z => z.sign
  | none => "Unknown"

/-- How many rows of the table match a given `(month, day)`. -/
def countMatches (month day : Int) : Nat :=
  (zodiacSigns.filter (fun z => zodiacMatches z month day)).length

/-- The twelve sign identifiers, as listed in the table. -/
def signNames : List String := zodiacSigns.map ZodiacEntry.sign

/-- Days of each Gregorian month, January first, February taken as 29
so that leap-day birthdays are inside the valid domain. -/
def monthLengths : List Int := [31, 29, 31, 30, 31, 30, 31, 31, 30, 31, 30, 31]

/-- Number of days of a month (`0` outside months 1–12, so no day is
valid there). -/
def daysInMonth (month : Int) : Int :=
  monthLengths.getD (month - 1).toNat 0

/-- Valid Gregorian `(month, day)` pairs, February 29 included. -/
def isValidMonthDay (month day : Int) : Bool :=
  decide (1 ≤ month ∧ month ≤ 12 ∧ 1 ≤ day ∧ day ≤ daysInMonth month)

/-- `true` when no row of the table matches `(month, day)`. -/
def noRowMatches (month day : Int) : Bool :=
  zodiacSigns.all (fun z => ! zodiacMatches z month day)

/-- The whitespace set of the JS regex class `\s` and of
`String.prototype.trim`, by code point: TAB, LF, VT, FF, CR, SP, NBSP,
OGHAM SPACE, U+2000–U+200A, LINE/PARAGRAPH SEPARATOR, NNBSP, MMSP,
IDEOGRAPHIC SPACE, BOM. -/
def jsWhitespaceCode (n : Nat) : Bool :=
  n == 9 || n == 10 || n == 11 || n == 12 || n == 13 || n == 32 ||
  n == 0xa0 || n == 0x1680 || (decide (0x2000 ≤ n) && decide (n ≤ 0x200a)) ||
  n == 0x2028 || n == 0x2029 || n == 0x202f || n == 0x205f ||
  n == 0x3000 || n == 0xfeff

/-- A character of the JS whitespace set. -/
def jsWhitespace (c : Char) : Bool := jsWhitespaceCode c.toNat

/-- The `trim()` sanitizer of the validation chain: strip leading and
trailing JS whitespace. -/
def jsTrim (s : String) : String :=
  String.mk (((s.data.dropWhile jsWhitespace).reverse.dropWhile jsWhitespace).reverse)

/-- A code point of the name regex class `[a-zA-Z\s'-]`: an ASCII
letter, a JS whitespace character, a hyphen (code 45) or an apostrophe
(code 39). -/
def nameClassCode (n : Nat) : Bool :=
  (decide (97 ≤ n) && decide (n ≤ 122)) ||
  (decide (65 ≤ n) && decide (n ≤ 90)) ||
  jsWhitespaceCode n || n == 45 || n == 39

/-- A character of the name regex class. -/
def isNameClassChar (c : Char) : Bool := nameClassCode c.toNat

/-- The `body('name')` chain of `zodiacValidation`: after the `trim()`
sanitizer, `isLength(min 1, max 100)` (default message "Invalid
value"), then `matches` against `^[a-zA-Z\s'-]+$` with its
`withMessage` text; each failed validator contributes one error. -/
def validateName (name : String) : List String :=
  let t := jsTrim name
  let lenOk : Bool := decide (1 ≤ t.length ∧ t.length ≤ 100)
  let reOk : Bool := (!t.data.isEmpty) && t.data.all isNameClassChar
  (if lenOk then [] else ["Invalid value"]) ++
    (if reOk then [] else
      ["Name must contain only letters, spaces, hyphens, and apostrophes"])

/-- A name is accepted when its validator chain reports no error. -/
def nameAccepted (name : String) : Bool := (validateName name).isEmpty

/-- The spec's wording of one valid name character, for comparison
with `isNameClassChar`: a letter, the space character (code 32) only —
not the whole whitespace class — a hyphen or an apostrophe. -/
def specNameChar (c : Char) : Bool :=
  let n := c.toNat
  (decide (97 ≤ n) && decide (n ≤ 122)) ||
  (decide (65 ≤ n) && decide (n ≤ 90)) ||
  n == 32 || n == 45 || n == 39

/-- The spec's wording of the name rule, for comparison with
`nameAccepted`: after trimming, a string of 1–100 characters drawn
from letters, space, hyphen, apostrophe. -/
def specNameValid (s : String) : Bool :=
  let t := jsTrim s
  decide (1 ≤ t.length ∧ t.length ≤ 100) && t.data.all specNameChar

/-- A parsed ISO-8601 calendar date. -/
structure SDate where
  year : Int
  month : Int
  day : Int
deriving DecidableEq

/-- JS `Date` comparison, for valid calendar dates at UTC midnight:
lexicographic on (year, month, day). -/
def dateLtB (a b : SDate) : Bool :=
  decide (a.year < b.year ∨ (a.year = b.year ∧
    (a.month < b.month ∨ (a.month = b.month ∧ a.day < b.day))))

/-- `new Date('1900-01-01')` of the custom date validator. -/
def minDate : SDate := ⟨1900, 1, 1⟩

/-- The `body('dateOfBirth')` chain of `zodiacValidation`: `isISO8601`
(a `none` input stands for a string it rejects; the custom check then
compares `NaN` and adds nothing further), then the custom range check
that throws "future" when `date > now` and "after 1900" when
`date < minDate`. -/
def validateDOB (dob : Option SDate) (now : SDate) : List String :=
  match dob with
  | none => ["Invalid date format"]
  | some d =>
      if dateLtB now d then ["Date of birth cannot be in the future"]
      else if dateLtB d minDate then ["Date of birth must be after 1900"]
      else []

/-- A POST /api/zodiac request body after JSON parsing. -/
structure Request where
  name : String
  dateOfBirth : Option SDate
deriving DecidableEq

/-- One stored entry as built by the POST handler: `id: Date.now()`,
the trimmed name, the submitted birth date, the derived sign, and the
creation timestamp.  The two instants (`id` and `timestamp`) are epoch
milliseconds embedded as `Int`; `toISOString` is injective on
instants, so the `Int` stands for the stored string. -/
structure Entry where
  id : Int
  name : String
  dateOfBirth : SDate
  zodiacSign : String
  timestamp : Int
deriving DecidableEq

/-- The response shapes of the POST handler: the success payload, the
400 payload with the collected validation errors, and the 500
catch-all. -/
inductive Response where
  | success (zodiacSign message : String)
  | validationError (errors : List String)
  | internalError (message : String)
deriving DecidableEq

/-- The success message template of the POST handler. -/
def successMessage (name sign : String) : String :=
  "Hello " ++ name ++ "! Your zodiac sign is " ++ sign ++ "."

/-- The store insert of the POST handler: `unshift` the new entry,
then `splice(100)` when the list has grown beyond 100 entries. -/
def insertCapped (e : Entry) (store : List Entry) : List Entry :=
  let l := e :: store
  if 100 < l.length then l.take 100 else l

/-- The POST /api/zodiac handler over the stored list: run the two
validator chains; on any error answer 400 with the collected errors
and leave the store alone; otherwise classify the birth date, build
the entry and insert it capped.  `now` is the calendar date the custom
validator compares against, `nowMs` the current instant
(`Date.now()`).  The `none` branch under empty errors is unreachable
(`validateDOB none` is nonempty) and maps to the handler's catch-all
500. -/
def submit (req : Request) (now : SDate) (nowMs : Int) (store : List Entry) :
    Response × List Entry :=
  let errs := validateName req.name ++ validateDOB req.dateOfBirth now
  if errs.isEmpty then
    match req.dateOfBirth with
    | some d =>
        let sign := calculateZodiacSign d.month d.day
        let entry : Entry := ⟨nowMs, jsTrim req.name, d, sign, nowMs⟩
        (Response.success sign (successMessage (jsTrim req.name) sign),
          insertCapped entry store)
    | none => (Response.internalError "Internal server error", store)
  else (Response.validationError errs, store)

/-- The projection the GET /api/recent handler applies to each stored
entry: id, name, zodiacSign, timestamp — the birth date is not among
the fields. -/
structure RecentEntry where
  id : Int
  name : String
  zodiacSign : String
  timestamp : Int
deriving DecidableEq

/-- Project one stored entry onto the public read shape. -/
def projectEntry (e : Entry) : RecentEntry :=
  ⟨e.id, e.name, e.zodiacSign, e.timestamp⟩

/-- The GET /api/recent handler: `slice(0, 10)` of the stored list
(which is kept newest first), each entry projected. -/
def recent (store : List Entry) : List RecentEntry :=
  (store.take 10).map projectEntry

/-- A sample stored entry, for concrete instantiations. -/
def sampleEntry : Entry := ⟨0, "Ada", ⟨1990, 5, 15⟩, "Taurus", 0⟩

/-- A sample store of 11 entries, for concrete instantiations. -/
def sampleStore11 : List Entry := List.replicate 11 sampleEntry

/-- The store after one accepted submission by Alice at instant 42. -/
def storeAfterAlice : List Entry :=
  (submit ⟨"Alice", some ⟨1990, 5, 15⟩⟩ ⟨2024, 1, 1⟩ 42 []).2

/-- The store after a further accepted submission by Bob, also at
instant 42 (two requests inside the same millisecond). -/
def storeAfterBob : List Entry :=
  (submit ⟨"Bob", some ⟨1990, 5, 15⟩⟩ ⟨2024, 1, 1⟩ 42 storeAfterAlice).2

/-- C2: the documented boundary dates map to the documented signs
(month 5 day 15 → Taurus, 1/19 → Capricorn, 1/20 → Aquarius,
12/22 → Capricorn, 3/21 → Aries, 3/20 → Pisces), and every range
boundary is inclusive on both sides: each table row's
`(startMonth, startDay)` and `(endMonth, endDay)` classify to that
row's own sign. -/
theorem c2_boundary_dates :
    calculateZodiacSign 5 15 = "Taurus" ∧
    calculateZodiacSign 1 19 = "Capricorn" ∧
    calculateZodiacSign 1 20 = "Aquarius" ∧
    calculateZodiacSign 12 22 = "Capricorn" ∧
    calculateZodiacSign 3 21 = "Aries" ∧
    calculateZodiacSign 3 20 = "Pisces" ∧
    (zodiacSigns.all (fun z =>
      calculateZodiacSign z.startMonth z.startDay = z.sign &&
      calculateZodiacSign z.endMonth z.endDay = z.sign)) = true := by
  decide

/-- All valid `(month, day)` pairs, enumerated over `Nat` so the kernel
can check the classification property by evaluation. -/
theorem zodiac_table_ball :
    ∀ m : Nat, m < 13 → ∀ d : Nat, d < 32 →
      isValidMonthDay (m : Int) (d : Int) = true →
      countMatches (m : Int) (d : Int) = 1 ∧
        calculateZodiacSign (m : Int) (d : Int) ∈ signNames := by
  decide

/-- Every month of the table's calendar has at most 31 days. -/
theorem daysInMonth_le_31 (month : Int) : daysInMonth month ≤ 31 := by
  unfold daysInMonth
  rcases Nat.lt_or_ge (month - 1).toNat 12 with h | h
  · generalize (month - 1).toNat = n at h
    interval_cases n <;> decide
  · rw [List.getD_eq_default]
    · decide
    · simpa [monthLengths] using h

/-- C1: on every valid Gregorian `(month, day)` pair (February 29
included) exactly one row of the twelve-entry table matches, and the
classifier returns one of the twelve sign identifiers: classification
is total and unambiguous over the valid domain. -/
theorem c1_exactly_one_sign (month day : Int)
    (h : isValidMonthDay month day = true) :
    countMatches month day = 1 ∧ calculateZodiacSign month day ∈ signNames := by
  have hb : 1 ≤ month ∧ month ≤ 12 ∧ 1 ≤ day ∧ day ≤ daysInMonth month := by
    simpa [isValidMonthDay] using h
  have hd31 : day ≤ 31 := le_trans hb.2.2.2 (daysInMonth_le_31 month)
  have hm : month = ((month.toNat : Nat) : Int) := by omega
  have hd : day = ((day.toNat : Nat) : Int) := by omega
  rw [hm, hd] at h ⊢
  exact zodiac_table_ball month.toNat (by omega) day.toNat (by omega) h

/-- C1 witness: the leap day February 29 is in the valid domain, one
table row matches it, and it gets one of the twelve signs. -/
theorem c1_exactly_one_sign_witness :
    isValidMonthDay 2 29 = true ∧
      (countMatches 2 29 = 1 ∧ calculateZodiacSign 2 29 ∈ signNames) :=
  ⟨by decide, c1_exactly_one_sign 2 29 (by decide)⟩

/-- The classifier's result is always the fallback or a table sign. -/
theorem calcSign_mem (month day : Int) :
    calculateZodiacSign month day ∈ "Unknown" :: signNames := by
  unfold calculateZodiacSign
  cases hf : zodiacSigns.find? (fun z => zodiacMatches z month day) with
  | none => simp
  | some z =>
      have hz : z ∈ zodiacSigns := List.mem_of_find?_eq_some hf
      simp only [List.mem_cons]
      exact Or.inr (List.mem_map_of_mem ZodiacEntry.sign hz)

/-- When no table row matches, the classifier falls through the loop
and returns the fallback string. -/
theorem calcSign_unknown_of_noRow {month day : Int}
    (h : noRowMatches month day = true) :
    calculateZodiacSign month day = "Unknown" := by
  unfold calculateZodiacSign
  cases hf : zodiacSigns.find? (fun z => zodiacMatches z month day) with
  | none => rfl
  | some z =>
      have hz : z ∈ zodiacSigns := List.mem_of_find?_eq_some hf
      have hmatch := List.find?_some hf
      have hall := List.all_eq_true.mp h z hz
      simp at hmatch
      simp [hmatch] at hall

/-- C10: the classifier is a total function on all integer `(month,
day)` inputs: every call returns exactly one string, always either one
of the twelve signs or the distinguished fallback `"Unknown"`, and
whenever no table row matches the result is `"Unknown"` rather than a
failure. -/
theorem c10_total_with_unknown_fallback (month day : Int) :
    calculateZodiacSign month day ∈ "Unknown" :: signNames ∧
      (noRowMatches month day = true →
        calculateZodiacSign month day = "Unknown") :=
  ⟨calcSign_mem month day, fun h => calcSign_unknown_of_noRow h⟩

/-- C10 witness: out-of-domain month 13 with day 0 matches no table
row and yields the fallback `"Unknown"`. -/
theorem c10_total_with_unknown_fallback_witness :
    noRowMatches 13 0 = true ∧ calculateZodiacSign 13 0 = "Unknown" :=
  ⟨by decide, (c10_total_with_unknown_fallback 13 0).2 (by decide)⟩

/-- C3 counterexample: at the concrete no-match input month 13, day 5,
the classifier does not raise any internal error: it hands back the
plain string `"Unknown"` through the same return channel as the signs,
and the handler's success-message template consumes it like any sign —
the condition is silently defaulted into an ordinary returned result,
not surfaced as an internal error. -/
theorem c3_counterexample :
    noRowMatches 13 5 = true ∧
      calculateZodiacSign 13 5 = "Unknown" ∧
      successMessage "Ann" (calculateZodiacSign 13 5) =
        "Hello Ann! Your zodiac sign is Unknown." := by
  decide

/-- C3 amended: when no table row matches, the classifier returns the
fallback string `"Unknown"` through its normal return path — a value
outside the twelve signs, but not an error of any kind: the success
message the handler would build from it is exactly the one built for
the literal sign string `"Unknown"`. -/
theorem c3_amended_unknown_fallback (month day : Int)
    (h : noRowMatches month day = true) :
    calculateZodiacSign month day = "Unknown" ∧
      calculateZodiacSign month day ∉ signNames ∧
      ∀ name : String,
        successMessage name (calculateZodiacSign month day) =
          successMessage name "Unknown" := by
  have hu := calcSign_unknown_of_noRow h
  refine ⟨hu, ?_, ?_⟩
  · rw [hu]; decide
  · intro name; rw [hu]

/-- C3 witness: the amended behavior at the no-match input (13, 5). -/
theorem c3_amended_unknown_fallback_witness :
    noRowMatches 13 5 = true ∧
      (calculateZodiacSign 13 5 = "Unknown" ∧
        calculateZodiacSign 13 5 ∉ signNames ∧
        ∀ name : String,
          successMessage name (calculateZodiacSign 13 5) =
            successMessage name "Unknown") :=
  ⟨by decide, c3_amended_unknown_fallback 13 5 (by decide)⟩

/-- C4: a parseable dateOfBirth later than the current date, or
earlier than 1900-01-01, makes the Submit operation answer with a
validation-error response, and the stored list is returned unchanged —
no SubmissionRecord is created for the rejected request. -/
theorem c4_bad_date_rejected (req : Request) (now : SDate) (nowMs : Int)
    (store : List Entry) (d : SDate)
    (hd : req.dateOfBirth = some d)
    (hbad : dateLtB now d = true ∨ dateLtB d minDate = true) :
    ∃ errs, errs ≠ [] ∧
      submit req now nowMs store = (Response.validationError errs, store) := by
  have hdob : validateDOB req.dateOfBirth now ≠ [] := by
    rw [hd]; unfold validateDOB
    rcases hbad with h | h
    · simp [h]
    · cases h1 : dateLtB now d <;> simp [h1, h]
  have hne : validateName req.name ++ validateDOB req.dateOfBirth now ≠ [] := by
    intro hnil
    exact hdob (List.append_eq_nil.mp hnil).2
  have hE : (validateName req.name ++ validateDOB req.dateOfBirth now).isEmpty
      = false := by
    cases hE : (validateName req.name ++ validateDOB req.dateOfBirth now).isEmpty
    · rfl
    · exact absurd (List.isEmpty_iff.mp hE) hne
  exact ⟨validateName req.name ++ validateDOB req.dateOfBirth now, hne,
    by simp [submit, hE]⟩

/-- C4 witness: a submission dated 2050-01-01, evaluated on 2024-06-01,
is in the future, gets a validation error, and leaves the empty store
empty. -/
theorem c4_bad_date_rejected_witness :
    dateLtB ⟨2024, 6, 1⟩ ⟨2050, 1, 1⟩ = true ∧
      ∃ errs, errs ≠ [] ∧
        submit ⟨"John Doe", some ⟨2050, 1, 1⟩⟩ ⟨2024, 6, 1⟩ 0 [] =
          (Response.validationError errs, []) :=
  ⟨by decide,
    c4_bad_date_rejected ⟨"John Doe", some ⟨2050, 1, 1⟩⟩ ⟨2024, 6, 1⟩ 0 []
      ⟨2050, 1, 1⟩ rfl (Or.inl (by decide))⟩

/-- C6: the store insert keeps at most 100 entries — the new length is
the old one plus one, capped at 100 — and what it keeps is exactly the
leading (most recent) block of the unshifted list: appending the
records dropped beyond position 100 (the oldest ones) reconstitutes
the whole unshifted list. -/
theorem c6_insert_capped (e : Entry) (store : List Entry) :
    (insertCapped e store).length = min (store.length + 1) 100 ∧
    insertCapped e store ++ (e :: store).drop 100 = e :: store := by
  unfold insertCapped
  by_cases h : 100 < (e :: store).length
  · rw [if_pos h]
    constructor
    · rw [List.length_take]
      simp only [List.length_cons] at h ⊢
      omega
    · exact List.take_append_drop 100 (e :: store)
  · rw [if_neg h]
    simp only [List.length_cons, Nat.not_lt] at h
    constructor
    · simp only [List.length_cons]
      omega
    · rw [List.drop_eq_nil_of_le (by simpa using h), List.append_nil]

/-- C7: the Recent operation returns `min (stored, 10)` entries — so
at most 10, and exactly 10 once more than 10 submissions are stored —
and its i-th entry (for every position below 10) is exactly the
projection of the i-th stored entry onto id, name, zodiacSign and
timestamp: order is preserved (newest first, as the store is kept) and
the birth date is withheld. -/
theorem c7_recent_top10 (store : List Entry) :
    (recent store).length = min store.length 10 ∧
    (∀ i : Nat, i < 10 →
      (recent store).get? i = (store.get? i).map projectEntry) ∧
    (10 < store.length → (recent store).length = 10) := by
  refine ⟨?_, ?_, ?_⟩
  · simp [recent, Nat.min_comm]
  · intro i hi
    unfold recent
    rw [List.get?_map, List.get?_take hi]
  · intro h
    simp only [recent, List.length_map, List.length_take]
    omega

/-- C7 witness: on a store of 11 entries the Recent operation returns
10 entries and its first entry is the projection of the first stored
entry. -/
theorem c7_recent_top10_witness :
    (recent sampleStore11).length = 10 ∧
      (recent sampleStore11).get? 0 =
        (sampleStore11.get? 0).map projectEntry ∧
      10 < sampleStore11.length :=
  ⟨(c7_recent_top10 sampleStore11).2.2 (by decide),
    (c7_recent_top10 sampleStore11).2.1 0 (by decide),
    by decide⟩

/-- C8: an accepted submission is answered with a success response
whose message is exactly "Hello name! Your zodiac sign is sign." built
from the (trimmed) submitted name and the sign derived from the birth
date; a rejected one is answered with a non-empty list of error
strings and leaves the store untouched — there is no partial success
state. -/
theorem c8_response_forms :
    (∀ (req : Request) (now : SDate) (nowMs : Int) (store : List Entry)
        (d : SDate),
      req.dateOfBirth = some d →
      validateName req.name ++ validateDOB req.dateOfBirth now = [] →
      (submit req now nowMs store).1 =
        Response.success (calculateZodiacSign d.month d.day)
          (successMessage (jsTrim req.name)
            (calculateZodiacSign d.month d.day))) ∧
    (∀ (req : Request) (now : SDate) (nowMs : Int) (store : List Entry),
      validateName req.name ++ validateDOB req.dateOfBirth now ≠ [] →
      ∃ errs, errs ≠ [] ∧
        submit req now nowMs store = (Response.validationError errs, store)) := by
  constructor
  · intro req now nowMs store d hd hok
    obtain ⟨hn, hdb⟩ := List.append_eq_nil.mp hok
    rw [hd] at hdb
    simp [submit, hd, hn, hdb]
  · intro req now nowMs store hne
    have hE : (validateName req.name ++ validateDOB req.dateOfBirth now).isEmpty
        = false := by
      cases hE : (validateName req.name ++ validateDOB req.dateOfBirth now).isEmpty
      · rfl
      · exact absurd (List.isEmpty_iff.mp hE) hne
    exact ⟨validateName req.name ++ validateDOB req.dateOfBirth now, hne,
      by simp [submit, hE]⟩

/-- C8 witness: "John Doe" born 1990-05-15 gets the success message
"Hello John Doe! Your zodiac sign is Taurus.". -/
theorem c8_response_forms_witness :
    (submit ⟨"John Doe", some ⟨1990, 5, 15⟩⟩ ⟨2023, 12, 31⟩ 0 []).1 =
      Response.success "Taurus" "Hello John Doe! Your zodiac sign is Taurus." := by
  have h := c8_response_forms.1 ⟨"John Doe", some ⟨1990, 5, 15⟩⟩
    ⟨2023, 12, 31⟩ 0 [] ⟨1990, 5, 15⟩ rfl (by decide)
  rw [h]
  decide

/-- C9 counterexample: two distinct accepted submissions (by Alice and
by Bob) processed within the same millisecond (`Date.now()` = 42) both
get identifier 42: the stored list then holds two records whose
identifiers are not pairwise distinct. -/
theorem c9_counterexample :
    storeAfterBob.map Entry.name = ["Bob", "Alice"] ∧
      storeAfterBob.map Entry.id = [42, 42] ∧
      ¬ (storeAfterBob.map Entry.id).Nodup := by
  decide

/-- The capped insert always keeps the new entry at the head. -/
theorem insertCapped_head (e : Entry) (store : List Entry) :
    (insertCapped e store).head? = some e := by
  unfold insertCapped
  by_cases h : 100 < (e :: store).length
  · rw [if_pos h]; rfl
  · rw [if_neg h]; rfl

/-- C9 amended: the identifier of the record created by an accepted
submission is exactly the `Date.now()` value at processing time, so
two accepted submissions receive distinct identifiers when (and only
because) they are processed at distinct millisecond instants;
uniqueness is not guaranteed within one millisecond. -/
theorem c9_amended_id_is_time :
    (∀ (req : Request) (now : SDate) (nowMs : Int) (store : List Entry)
        (d : SDate),
      req.dateOfBirth = some d →
      validateName req.name ++ validateDOB req.dateOfBirth now = [] →
      ((submit req now nowMs store).2.head?.map Entry.id) = some nowMs) ∧
    (∀ (r1 r2 : Request) (n1 n2 : SDate) (ms1 ms2 : Int)
        (s1 s2 : List Entry) (d1 d2 : SDate),
      r1.dateOfBirth = some d1 → r2.dateOfBirth = some d2 →
      validateName r1.name ++ validateDOB r1.dateOfBirth n1 = [] →
      validateName r2.name ++ validateDOB r2.dateOfBirth n2 = [] →
      ms1 ≠ ms2 →
      (submit r1 n1 ms1 s1).2.head?.map Entry.id ≠
        (submit r2 n2 ms2 s2).2.head?.map Entry.id) := by
  have hhead : ∀ (req : Request) (now : SDate) (nowMs : Int)
      (store : List Entry) (d : SDate),
      req.dateOfBirth = some d →
      validateName req.name ++ validateDOB req.dateOfBirth now = [] →
      ((submit req now nowMs store).2.head?.map Entry.id) = some nowMs := by
    intro req now nowMs store d hd hok
    obtain ⟨hn, hdb⟩ := List.append_eq_nil.mp hok
    rw [hd] at hdb
    have h2 : (submit req now nowMs store).2 =
        insertCapped
          ⟨nowMs, jsTrim req.name, d, calculateZodiacSign d.month d.day, nowMs⟩
          store := by
      simp [submit, hd, hn, hdb]
    rw [h2, insertCapped_head]
    rfl
  refine ⟨hhead, ?_⟩
  intro r1 r2 n1 n2 ms1 ms2 s1 s2 d1 d2 hd1 hd2 hok1 hok2 hms
  rw [hhead r1 n1 ms1 s1 d1 hd1 hok1, hhead r2 n2 ms2 s2 d2 hd2 hok2]
  simpa using hms

/-- C9 witness: an accepted submission processed at instant 7 stores a
record with identifier 7, and the same submission processed at instant
8 stores a record with a different identifier. -/
theorem c9_amended_id_is_time_witness :
    ((submit ⟨"Ann", some ⟨1990, 5, 15⟩⟩ ⟨2024, 1, 1⟩ 7 []).2.head?.map
        Entry.id = some 7) ∧
      ((submit ⟨"Ann", some ⟨1990, 5, 15⟩⟩ ⟨2024, 1, 1⟩ 7 []).2.head?.map
          Entry.id ≠
        (submit ⟨"Ann", some ⟨1990, 5, 15⟩⟩ ⟨2024, 1, 1⟩ 8 []).2.head?.map
          Entry.id) :=
  ⟨c9_amended_id_is_time.1 ⟨"Ann", some ⟨1990, 5, 15⟩⟩ ⟨2024, 1, 1⟩ 7 []
      ⟨1990, 5, 15⟩ rfl (by decide),
    c9_amended_id_is_time.2 ⟨"Ann", some ⟨1990, 5, 15⟩⟩
      ⟨"Ann", some ⟨1990, 5, 15⟩⟩ ⟨2024, 1, 1⟩ ⟨2024, 1, 1⟩ 7 8 [] []
      ⟨1990, 5, 15⟩ ⟨1990, 5, 15⟩ rfl rfl (by decide) (by decide) (by decide)⟩

/-- Dropping a whitespace run from the front keeps every element the
dropped predicate does not hold of. -/
theorem mem_dropWhile_of_not {α : Type} (p : α → Bool) (a : α)
    (hp : p a = false) :
    ∀ l : List α, a ∈ l → a ∈ l.dropWhile p := by
  intro l
  induction l with
  | nil => intro ha; cases ha
  | cons x xs ih =>
      intro ha
      rw [List.dropWhile_cons]
      by_cases hx : p x = true
      · simp only [hx, if_true]
        rcases List.mem_cons.mp ha with h | h
        · rw [← h, hp] at hx; cases hx
        · exact ih h
      · have hx' : p x = false := by simpa using hx
        simp only [hx', Bool.false_eq_true, if_false]
        exact ha

/-- Trimming removes only whitespace: every non-whitespace character
of the string survives into the trimmed string. -/
theorem mem_jsTrim {c : Char} {s : String} (hc : c ∈ s.data)
    (hw : jsWhitespace c = false) : c ∈ (jsTrim s).data := by
  show c ∈ ((s.data.dropWhile jsWhitespace).reverse.dropWhile jsWhitespace).reverse
  rw [List.mem_reverse]
  apply mem_dropWhile_of_not jsWhitespace c hw
  rw [List.mem_reverse]
  exact mem_dropWhile_of_not jsWhitespace c hw _ hc

/-- A digit code point (48–57) is neither JS whitespace nor in the
name regex class. -/
theorem digitCode_facts (n : Nat) (h1 : 48 ≤ n) (h2 : n ≤ 57) :
    jsWhitespaceCode n = false ∧ nameClassCode n = false := by
  constructor <;> (interval_cases n <;> decide)

/-- A digit character is neither JS whitespace nor in the name regex
class. -/
theorem isDigit_char_facts {c : Char} (h : c.isDigit = true) :
    jsWhitespace c = false ∧ isNameClassChar c = false := by
  simp [Char.isDigit] at h
  have h1 : 48 ≤ c.toNat := h.1
  have h2 : c.toNat ≤ 57 := h.2
  exact digitCode_facts c.toNat h1 h2

/-- The name validator succeeds exactly when the trimmed length check
and the regex check both pass. -/
theorem validateName_isEmpty_eq (s : String) :
    (validateName s).isEmpty =
      (decide (1 ≤ (jsTrim s).length ∧ (jsTrim s).length ≤ 100) &&
        ((!(jsTrim s).data.isEmpty) && (jsTrim s).data.all isNameClassChar)) := by
  simp only [validateName]
  cases h1 : decide (1 ≤ (jsTrim s).length ∧ (jsTrim s).length ≤ 100) <;>
  cases h2 : ((!(jsTrim s).data.isEmpty) && (jsTrim s).data.all isNameClassChar) <;>
  simp [h1, h2]

/-- Acceptance of a name, characterized: trimmed length between 1 and
100 and every trimmed character in the regex class (the regex's
nonemptiness requirement is subsumed by length at least 1). -/
theorem nameAccepted_iff (s : String) :
    nameAccepted s = true ↔
      (1 ≤ (jsTrim s).length ∧ (jsTrim s).length ≤ 100 ∧
        (jsTrim s).data.all isNameClassChar = true) := by
  have hlen : (jsTrim s).length = (jsTrim s).data.length := rfl
  rw [nameAccepted, validateName_isEmpty_eq]
  simp only [Bool.and_eq_true, decide_eq_true_eq, Bool.not_eq_true']
  constructor
  · rintro ⟨⟨ha, hb⟩, _, hall⟩
    exact ⟨ha, hb, hall⟩
  · rintro ⟨ha, hb, hall⟩
    refine ⟨⟨ha, hb⟩, ?_, hall⟩
    cases hd : (jsTrim s).data with
    | nil => rw [hlen, hd] at ha; cases ha
    | cons x xs => simp [hd]

/-- C5 counterexample: the name "John TAB Doe" (an interior tab
character, code 9) is accepted by the validator, because the regex
class `\s` admits every whitespace character — but the spec's class
letters/space/hyphen/apostrophe rejects it: acceptance is not
equivalent to the spec's stated character class. -/
theorem c5_name_class_counterexample :
    nameAccepted "John\tDoe" = true ∧ specNameValid "John\tDoe" = false := by
  decide

/-- C5 amended: a name is accepted if and only if, after trimming, it
has 1 to 100 characters all drawn from the regex class: letters, JS
whitespace characters (space, tab, newline, ...), hyphen, apostrophe;
in particular any name containing a digit is rejected. -/
theorem c5_amended_name_rule :
    (∀ s : String, nameAccepted s = true ↔
      (1 ≤ (jsTrim s).length ∧ (jsTrim s).length ≤ 100 ∧
        (jsTrim s).data.all isNameClassChar = true)) ∧
    (∀ (s : String) (c : Char), c ∈ s.data → c.isDigit = true →
      nameAccepted s = false) := by
  refine ⟨nameAccepted_iff, ?_⟩
  intro s c hc hd
  have hw : jsWhitespace c = false := (isDigit_char_facts hd).1
  have hn : isNameClassChar c = false := (isDigit_char_facts hd).2
  have hmem : c ∈ (jsTrim s).data := mem_jsTrim hc hw
  have hall : (jsTrim s).data.all isNameClassChar = false := by
    cases hall : (jsTrim s).data.all isNameClassChar
    · rfl
    · have := List.all_eq_true.mp hall c hmem
      rw [hn] at this; cases this
  cases hacc : nameAccepted s
  · rfl
  · have h2 := ((nameAccepted_iff s).mp hacc).2.2
    rw [hall] at h2; cases h2

/-- C5 witness: the digit-bearing name "John3" is rejected. -/
theorem c5_amended_name_rule_witness :
    nameAccepted "John3" = false :=
  c5_amended_name_rule.2 "John3" '3' (by decide) (by decide)
